import Mathlib

/-!
# Reward and ledger transaction engine (stocky-assignment)

Shallow embedding of `handlers.go`, `helper.go`, `models.go` and
`price_service.go`.

Conventions of the embedding

* `decimal.Decimal` (shopspring) and the store's `numeric` columns are finite
  decimals whose `Mul` and `Add` do not round; their values are embedded in
  `ℚ`. The only rounding in the Go code is `StringFixed(4)`.
* `CorporateActionRequest.Ratio` is a Go `float64` parsed from JSON and handed
  to the store unchanged; it is embedded as the rational it denotes. The SQL
  product `quantity * $1` of two decimals is a decimal and is embedded as the
  product in `ℚ`.
* The SQL quotient `price_inr / $1` of two decimals need not be a decimal. The
  store keeps a finite decimal: the exact quotient rounded to the number of
  fractional digits the store gives that result. This number depends on the
  store and on a schema that is not part of the sources, so it is an input
  (`CorporateEnv.quotientScale`), and the quotient is `numericDiv`.
* The relational store is four lists of rows. A transaction works on a copy
  of the store; the copy replaces the store only when `Commit` succeeds, every
  other exit path runs the deferred `Rollback` and leaves the store as it was.
* Values produced outside the handlers (`time.Now()`, `generateUUID()`, the
  row id returned by `INSERT ... RETURNING id`) and the errors a store call
  may return are inputs, collected in an environment record.
-/

namespace Stocky

/-! ## Persisted rows -/

/-- Modelled from the spec: the `rewards` table, whose schema is not part of the
sources. Columns as used by the statements in `handlers.go` and listed in the
persisted schema: `Reward(id, user_id, stock_symbol, quantity, rewarded_at,
idempotency_key UNIQUE NULLABLE, notes)`. -/
structure Reward where
  id : String
  userId : String
  stockSymbol : String
  quantity : ℚ
  rewardedAt : Nat
  idempotencyKey : Option String
  notes : String
  deriving DecidableEq

/-- Modelled from the spec: the `price_ticks` table,
`PriceTick(stock_symbol, price_inr, fetched_at)`. -/
structure PriceTick where
  stockSymbol : String
  priceInr : ℚ
  fetchedAt : Nat
  deriving DecidableEq

/-- Modelled from the spec: `entry_type ∈ {DEBIT, CREDIT}`. -/
inductive EntryType where
  | DEBIT
  | CREDIT
  deriving DecidableEq

/-- Modelled from the spec: the `ledger_entries` table,
`LedgerEntry(id, tx_id, account, entry_type, amount_inr NULLABLE,
stock_symbol NULLABLE, stock_quantity NULLABLE, ref_id NULLABLE)`. The
surrogate key `id` is generated by the store and never read by the handlers;
it is left out. -/
structure LedgerEntry where
  txId : String
  account : String
  entryType : EntryType
  amountInr : Option ℚ
  stockSymbol : Option String
  stockQuantity : Option ℚ
  refId : Option String
  deriving DecidableEq

/-- Modelled from the spec: the `corporate_actions` table,
`CorporateAction(stock_symbol, action_type, parameter JSON, effective_date)`;
the JSON parameter is the pair built by
`jsonb_build_object('ratio', $3, 'new_symbol', $4)`. -/
structure CorporateAction where
  stockSymbol : String
  actionType : String
  ratio : ℚ
  newSymbol : String
  effectiveDate : Nat
  deriving DecidableEq

/-- The persisted state behind `a.DB`. -/
structure Store where
  rewards : List Reward
  priceTicks : List PriceTick
  ledgerEntries : List LedgerEntry
  corporateActions : List CorporateAction
  deriving DecidableEq

/-! ## models.go -/

/-- The struct `RewardRequest`. -/
structure RewardRequest where
  UserID : String
  StockSymbol : String
  Quantity : ℚ
  IdempotencyKey : String
  Notes : String
  deriving DecidableEq

/-- The struct `CorporateActionRequest`. -/
structure CorporateActionRequest where
  Action : String
  Symbol : String
  NewSymbol : String
  Ratio : ℚ
  Effective : String
  deriving DecidableEq

/-! ## helper.go -/

/-- Function `nullString`: the empty string is sent to the store as NULL. -/
def nullString (s : String) : Option String :=
  if s = "" then none else some s

/-- Function `nilDecimalOr`: a zero decimal is sent to the store as NULL. -/
def nilDecimalOr (d : ℚ) : Option ℚ :=
  if d = 0 then none else some d

/-- Go `strings.Contains` on the characters of the two strings. -/
def containsChars : List Char → List Char → Bool
  | [], sub => sub.isEmpty
  | c :: cs, sub => sub.isPrefixOf (c :: cs) || containsChars cs sub

/-- Go `strings.Contains`. -/
def stringsContains (s sub : String) : Bool :=
  containsChars s.toList sub.toList

/-- Function `isUniqueViolation`: `none` is the nil error, `some msg` an error whose
`Error()` text is `msg`. -/
def isUniqueViolation (err : Option String) : Bool :=
  match err with
  | none => false
  | some msg => stringsContains msg "unique" || stringsContains msg "duplicate"

/-! ## price_service.go -/

/-- The row chosen by `ORDER BY fetched_at DESC LIMIT 1` among the ticks of
`symbol`; among ticks with the same `fetched_at` the first in table order is
taken. -/
def latestTick (ticks : List PriceTick) (symbol : String) : Option PriceTick :=
  match ticks with
  | [] => none
  | t :: ts =>
    if t.stockSymbol = symbol then
      match latestTick ts symbol with
      | none => some t
      | some u => if t.fetchedAt < u.fetchedAt then some u else some t
    else latestTick ts symbol

/-- The error of `row.Scan` when the query has no row (`sql.ErrNoRows`). -/
def errNoRows : String := "sql: no rows in result set"

/-- Function `getLatestPriceForSymbol`: the price of the latest tick of `symbol`,
or the error of the scan when the symbol has no tick. -/
def getLatestPriceForSymbol (db : Store) (symbol : String) : Except String ℚ :=
  match latestTick db.priceTicks symbol with
  | none => .error errNoRows
  | some t => .ok t.priceInr

/-! ## decimal formatting -/

/-- Rounding of `Decimal.Round(places)`, scaled by `10^places`: the nearest integer to
`x * 10^places`, halves rounded away from zero. -/
def roundScaled (places : Nat) (x : ℚ) : Int :=
  if 0 ≤ x then Int.floor (x * 10 ^ places + 1 / 2)
  else - Int.floor (-x * 10 ^ places + 1 / 2)

/-- Left-pads a digit list with `'0'` up to length `n`. -/
def padZeros (n : Nat) (ds : List Char) : List Char :=
  List.replicate (n - ds.length) '0' ++ ds

/-- Method `Decimal.StringFixed(places)`: the decimal rounded to `places` fractional
digits, printed with exactly that many digits after the point. -/
def StringFixed (places : Nat) (x : ℚ) : String :=
  let n := roundScaled places x
  let ds := padZeros (places + 1) (Nat.toDigits 10 n.natAbs)
  let intPart := ds.take (ds.length - places)
  let fracPart := ds.drop (ds.length - places)
  let body := if places = 0 then intPart else intPart ++ '.' :: fracPart
  String.mk (if n < 0 then '-' :: body else body)

/-! ## handlers.go: PostRewardHandler -/

/-- What `PostRewardHandler` takes from outside the request: the clock, the
id the store returns for the inserted reward, the generated UUID, and the
error (if any) each store call returns. `insertRewardErr` is an error of the
reward insert other than the one the store raises itself for a repeated
idempotency key. -/
structure RewardEnv where
  now : Nat
  rewardID : String
  txID : String
  beginErr : Option String
  insertRewardErr : Option String
  ledgerErr1 : Option String
  ledgerErr2 : Option String
  ledgerErr3 : Option String
  commitErr : Option String
  deriving DecidableEq

/-- No store call fails for a reason of its own. -/
def RewardEnv.healthy (env : RewardEnv) : Prop :=
  env.beginErr = none ∧ env.insertRewardErr = none ∧ env.ledgerErr1 = none ∧
    env.ledgerErr2 = none ∧ env.ledgerErr3 = none ∧ env.commitErr = none

instance (env : RewardEnv) : Decidable env.healthy := by
  unfold RewardEnv.healthy; infer_instance

/-- The JSON answers of `PostRewardHandler`: 400 with the binding error, 500
with the `error` text, 200 with `status: duplicate`, and 200 with the reward.
`quantity` stands for `req.Quantity.String()`. -/
inductive RewardResponse where
  | badRequest (err : String)
  | internalError (err : String)
  | duplicate
  | ok (rewardId : String) (stock : String) (quantity : ℚ) (estimatedCostInr : String)
  deriving DecidableEq

/-- The HTTP status of an answer. -/
def RewardResponse.status : RewardResponse → Nat
  | .badRequest _ => 400
  | .internalError _ => 500
  | .duplicate => 200
  | .ok _ _ _ _ => 200

/-- The text of the error the store raises when an insert repeats a value of
the unique column `idempotency_key`. -/
def uniqueViolationMsg : String :=
  "pq: duplicate key value violates unique constraint \"rewards_idempotency_key_key\""

/-- Modelled from the spec: the uniqueness constraint on `idempotency_key`
(`UNIQUE NULLABLE`), declared in a schema that is not part of the sources. The
insert is refused when a row already carries the same non-NULL key. -/
def violatesIdempotency (rewards : List Reward) (key : Option String) : Bool :=
  match key with
  | none => false
  | some k => rewards.any (fun r => r.idempotencyKey = some k)

/-- The statement `INSERT INTO rewards (...) VALUES (...) RETURNING id` run in
the transaction `tx`. -/
def insertReward (tx : Store) (env : RewardEnv) (req : RewardRequest) (rewardedAt : Nat) :
    Except String (String × Store) :=
  match env.insertRewardErr with
  | some e => .error e
  | none =>
    if violatesIdempotency tx.rewards (nullString req.IdempotencyKey) then
      .error uniqueViolationMsg
    else
      .ok (env.rewardID,
        { tx with rewards := tx.rewards ++
            [{ id := env.rewardID, userId := req.UserID, stockSymbol := req.StockSymbol,
               quantity := req.Quantity, rewardedAt := rewardedAt,
               idempotencyKey := nullString req.IdempotencyKey, notes := req.Notes }] })

/-- One `INSERT INTO ledger_entries` run in the transaction `tx`; `err` is the
error the store returns for it. -/
def insertLedger (tx : Store) (err : Option String) (e : LedgerEntry) : Except String Store :=
  match err with
  | some msg => .error msg
  | none => .ok { tx with ledgerEntries := tx.ledgerEntries ++ [e] }

/-- The amounts computed at lines 30 to 40 of `handlers.go`. -/
structure RewardAmounts where
  cost : ℚ
  brokerage : ℚ
  stt : ℚ
  gst : ℚ
  totalFees : ℚ
  totalCashOutflow : ℚ
  deriving DecidableEq

/-- Lines 30 to 40 of `PostRewardHandler`. -/
def rewardAmounts (price quantity : ℚ) : RewardAmounts :=
  let cost := price * quantity
  let brokeragePct : ℚ := 2 / 10000
  let sttPct : ℚ := 1 / 1000
  let gstPct : ℚ := 18 / 100
  let brokerage := cost * brokeragePct
  let stt := cost * sttPct
  let gst := brokerage * gstPct
  let totalFees := brokerage + stt + gst
  let totalCashOutflow := cost + totalFees
  { cost := cost, brokerage := brokerage, stt := stt, gst := gst,
    totalFees := totalFees, totalCashOutflow := totalCashOutflow }

/-- The price `PostRewardHandler` works with: the latest tick, or
`decimal.Zero` when the lookup returns an error. -/
def priceOrZero (db : Store) (symbol : String) : ℚ :=
  match getLatestPriceForSymbol db symbol with
  | .ok p => p
  | .error _ => 0

/-- Handler `PostRewardHandler`. `body` is the result of `c.ShouldBindJSON(&req)`. The
result is the JSON answer and the store after the call. -/
def PostRewardHandler (db : Store) (env : RewardEnv) (body : Except String RewardRequest) :
    RewardResponse × Store :=
  match body with
  | .error err => (.badRequest err, db)
  | .ok req =>
    let rewardedAt := env.now
    let price := priceOrZero db req.StockSymbol
    let amt := rewardAmounts price req.Quantity
    match env.beginErr with
    | some _ => (.internalError "internal", db)
    | none =>
      match insertReward db env req rewardedAt with
      | .error err =>
        if isUniqueViolation (some err) then (.duplicate, db)
        else (.internalError "could not insert reward", db)
      | .ok (rewardID, tx1) =>
        let txID := env.txID
        match insertLedger tx1 env.ledgerErr1
            { txId := txID, account := "stock:" ++ req.StockSymbol, entryType := .DEBIT,
              amountInr := nilDecimalOr (price * req.Quantity),
              stockSymbol := some req.StockSymbol, stockQuantity := some req.Quantity,
              refId := some rewardID } with
        | .error _ => (.internalError "ledger error", db)
        | .ok tx2 =>
          match insertLedger tx2 env.ledgerErr2
              { txId := txID, account := "cash:exchange", entryType := .CREDIT,
                amountInr := some amt.totalCashOutflow,
                stockSymbol := some req.StockSymbol, stockQuantity := none,
                refId := some rewardID } with
          | .error _ => (.internalError "ledger error 2", db)
          | .ok tx3 =>
            match insertLedger tx3 env.ledgerErr3
                { txId := txID, account := "fees:brokerage_stt_gst", entryType := .DEBIT,
                  amountInr := some amt.totalFees,
                  stockSymbol := none, stockQuantity := none,
                  refId := some rewardID } with
            | .error _ => (.internalError "ledger fee error", db)
            | .ok tx4 =>
              match env.commitErr with
              | some _ => (.internalError "commit failed", db)
              | none =>
                (.ok rewardID req.StockSymbol req.Quantity
                  (StringFixed 4 amt.totalCashOutflow), tx4)

/-! ## Reading the ledger -/

/-- Sum of `amount_inr` over the entries of type `ty`, a NULL amount counting
as zero (SQL `SUM` skips NULL). -/
def sumAmounts (ty : EntryType) (es : List LedgerEntry) : ℚ :=
  ((es.filter (fun e => e.entryType = ty)).map (fun e => e.amountInr.getD 0)).sum

/-- The entries of one logical transaction. -/
def entriesOfTx (txID : String) (es : List LedgerEntry) : List LedgerEntry :=
  es.filter (fun e => e.txId = txID)

/-- The entries that refer to the reward `rewardID`. -/
def entriesOfReward (rewardID : String) (es : List LedgerEntry) : List LedgerEntry :=
  es.filter (fun e => e.refId = some rewardID)

/-- The rewards carrying the idempotency key `k`. -/
def rewardsWithKey (k : String) (rs : List Reward) : List Reward :=
  rs.filter (fun r => r.idempotencyKey = some k)

/-- The three ledger rows `PostRewardHandler` writes for `req` at price
`price`, in the order of the three inserts. -/
def rewardPostings (txID rewardID : String) (req : RewardRequest) (price : ℚ) :
    List LedgerEntry :=
  [ { txId := txID, account := "stock:" ++ req.StockSymbol, entryType := .DEBIT,
      amountInr := nilDecimalOr (rewardAmounts price req.Quantity).cost,
      stockSymbol := some req.StockSymbol, stockQuantity := some req.Quantity,
      refId := some rewardID },
    { txId := txID, account := "cash:exchange", entryType := .CREDIT,
      amountInr := some (rewardAmounts price req.Quantity).totalCashOutflow,
      stockSymbol := some req.StockSymbol, stockQuantity := none,
      refId := some rewardID },
    { txId := txID, account := "fees:brokerage_stt_gst", entryType := .DEBIT,
      amountInr := some (rewardAmounts price req.Quantity).totalFees,
      stockSymbol := none, stockQuantity := none,
      refId := some rewardID } ]

/-- The reward row `PostRewardHandler` inserts for `req`. -/
def rewardRow (env : RewardEnv) (req : RewardRequest) : Reward :=
  { id := env.rewardID, userId := req.UserID, stockSymbol := req.StockSymbol,
    quantity := req.Quantity, rewardedAt := env.now,
    idempotencyKey := nullString req.IdempotencyKey, notes := req.Notes }

/-- The answer is the 200 answer that carries the reward. -/
def RewardResponse.isOk : RewardResponse → Bool
  | .ok _ _ _ _ => true
  | _ => false

/-! ## handlers.go: CorporateActionHandler -/

/-- What `CorporateActionHandler` takes from outside the request: the clock,
the generated UUID, and the error (if any) of each store call: `Beginx`, the
`UPDATE rewards`, the `UPDATE` or `DELETE` on `price_ticks`, the marker insert,
the insert into `corporate_actions`, and `Commit`. `quotientScale p r` is the
number of fractional digits the store keeps for the quotient of the price `p`
by the ratio `r`. -/
structure CorporateEnv where
  now : Nat
  txID : String
  quotientScale : ℚ → ℚ → Nat
  beginErr : Option String
  rewardsErr : Option String
  pricesErr : Option String
  ledgerErr : Option String
  actionErr : Option String
  commitErr : Option String

/-- No store call fails. -/
def CorporateEnv.healthy (env : CorporateEnv) : Prop :=
  env.beginErr = none ∧ env.rewardsErr = none ∧ env.pricesErr = none ∧
    env.ledgerErr = none ∧ env.actionErr = none ∧ env.commitErr = none

instance (env : CorporateEnv) : Decidable env.healthy := by
  unfold CorporateEnv.healthy; infer_instance

/-- The JSON answers of `CorporateActionHandler`: 400, 500, and the 200 answer
echoing action, symbol, ratio and new symbol. -/
inductive CorporateResponse where
  | badRequest (err : String)
  | internalError (err : String)
  | ok (action : String) (symbol : String) (ratio : ℚ) (new : String)
  deriving DecidableEq

/-- Statement `UPDATE rewards SET quantity = quantity * $1 WHERE stock_symbol = $2`. -/
def splitRewards (rs : List Reward) (ratio : ℚ) (symbol : String) : List Reward :=
  rs.map (fun r => if r.stockSymbol = symbol then { r with quantity := r.quantity * ratio } else r)

/-- The quotient `a / b` as a `numeric` of the store: the finite decimal with
`scale` fractional digits nearest to the exact quotient, halves rounded away
from zero. -/
def numericDiv (scale : Nat) (a b : ℚ) : ℚ :=
  (roundScaled scale (a / b) : ℚ) / 10 ^ scale

/-- Statement `UPDATE price_ticks SET price_inr = price_inr / $1 WHERE stock_symbol = $2`;
`scale` gives, for each price and the ratio, the fractional digits of the
stored quotient. -/
def splitPrices (ts : List PriceTick) (scale : ℚ → ℚ → Nat) (ratio : ℚ) (symbol : String) :
    List PriceTick :=
  ts.map (fun t =>
    if t.stockSymbol = symbol then
      { t with priceInr := numericDiv (scale t.priceInr ratio) t.priceInr ratio }
    else t)

/-- Statement `UPDATE rewards SET stock_symbol = $1, quantity = quantity * $2
WHERE stock_symbol = $3`. -/
def mergeRewards (rs : List Reward) (newSymbol : String) (ratio : ℚ) (symbol : String) :
    List Reward :=
  rs.map (fun r =>
    if r.stockSymbol = symbol then
      { r with stockSymbol := newSymbol, quantity := r.quantity * ratio }
    else r)

/-- Statement `UPDATE rewards SET notes = 'DELISTED' WHERE stock_symbol = $1`. -/
def delistRewards (rs : List Reward) (symbol : String) : List Reward :=
  rs.map (fun r => if r.stockSymbol = symbol then { r with notes := "DELISTED" } else r)

/-- Statement `DELETE FROM price_ticks WHERE stock_symbol = $1`. -/
def deletePrices (ts : List PriceTick) (symbol : String) : List PriceTick :=
  ts.filter (fun t => ¬ t.stockSymbol = symbol)

/-- The marker row of the three `INSERT INTO ledger_entries` statements of
`CorporateActionHandler`: the columns not listed in the statement are NULL. -/
def markerEntry (txID account : String) (ty : EntryType) (symbol : String) : LedgerEntry :=
  { txId := txID, account := account, entryType := ty, amountInr := none,
    stockSymbol := some symbol, stockQuantity := none, refId := none }

/-- The `switch action` block of `CorporateActionHandler`, run in the
transaction `tx`: either the answer of an early `return`, or the transaction
state reached at the end of the case. -/
def applyAction (tx : Store) (env : CorporateEnv) (action symbol : String) (ratio : ℚ)
    (newSymbol : String) : Except CorporateResponse Store :=
  if action = "SPLIT" then
    if ratio ≤ 0 then .error (.badRequest "invalid split ratio")
    else
      match env.rewardsErr with
      | some _ => .error (.internalError "failed to update rewards")
      | none =>
        let tx1 := { tx with rewards := splitRewards tx.rewards ratio symbol }
        match env.pricesErr with
        | some _ => .error (.internalError "failed to update prices")
        | none =>
          let tx2 := { tx1 with
            priceTicks := splitPrices tx1.priceTicks env.quotientScale ratio symbol }
          match insertLedger tx2 env.ledgerErr
              (markerEntry env.txID "corporate_action:split" .DEBIT symbol) with
          | .error _ => .error (.internalError "failed to record ledger entry")
          | .ok tx3 => .ok tx3
  else if action = "MERGER" then
    if ratio ≤ 0 ∨ newSymbol = "" then
      .error (.badRequest "invalid merger ratio or new_symbol missing")
    else
      match env.rewardsErr with
      | some _ => .error (.internalError "failed to merge rewards")
      | none =>
        let tx1 := { tx with rewards := mergeRewards tx.rewards newSymbol ratio symbol }
        match insertLedger tx1 env.ledgerErr
            (markerEntry env.txID "corporate_action:merger" .DEBIT symbol) with
        | .error _ => .error (.internalError "failed to record ledger entry")
        | .ok tx2 => .ok tx2
  else if action = "DELIST" then
    match env.rewardsErr with
    | some _ => .error (.internalError "failed to delist stock")
    | none =>
      let tx1 := { tx with rewards := delistRewards tx.rewards symbol }
      match env.pricesErr with
      | some _ => .error (.internalError "failed to remove prices")
      | none =>
        let tx2 := { tx1 with priceTicks := deletePrices tx1.priceTicks symbol }
        match insertLedger tx2 env.ledgerErr
            (markerEntry env.txID "corporate_action:delist" .CREDIT symbol) with
        | .error _ => .error (.internalError "failed to record ledger entry")
        | .ok tx3 => .ok tx3
  else .error (.badRequest "unsupported action type")

/-- Handler `CorporateActionHandler`. `body` is the result of `c.ShouldBindJSON(&req)`.
The result is the JSON answer and the store after the call. -/
def CorporateActionHandler (db : Store) (env : CorporateEnv)
    (body : Except String CorporateActionRequest) : CorporateResponse × Store :=
  match body with
  | .error err => (.badRequest err, db)
  | .ok req =>
    match env.beginErr with
    | some _ => (.internalError "db transaction error", db)
    | none =>
      let action := req.Action
      let symbol := req.Symbol
      let ratio := req.Ratio
      let newSymbol := req.NewSymbol
      match applyAction db env action symbol ratio newSymbol with
      | .error resp => (resp, db)
      | .ok tx =>
        match env.actionErr with
        | some _ => (.internalError "failed to record corporate action", db)
        | none =>
          let tx1 := { tx with corporateActions := tx.corporateActions ++
            [{ stockSymbol := symbol, actionType := action, ratio := ratio,
               newSymbol := newSymbol, effectiveDate := env.now }] }
          match env.commitErr with
          | some _ => (.internalError "transaction commit failed", db)
          | none => (.ok action symbol ratio newSymbol, tx1)

/-! ## Valuation, as in GetPortfolioHandler -/

/-- Query `SELECT SUM(quantity) FROM rewards WHERE user_id = $1` for the group of
`symbol`. -/
def holdingQuantity (db : Store) (userId symbol : String) : ℚ :=
  ((db.rewards.filter (fun r => r.userId = userId ∧ r.stockSymbol = symbol)).map
    (fun r => r.quantity)).sum

/-- The value of one holding in `GetPortfolioHandler`:
`val := price.Mul(h.Quantity)` with the latest price of the symbol. -/
def positionValue (db : Store) (userId symbol : String) : ℚ :=
  priceOrZero db symbol * holdingQuantity db userId symbol

/-- The answer is the 200 answer of an applied corporate action. -/
def CorporateResponse.isOk : CorporateResponse → Bool
  | .ok _ _ _ _ => true
  | _ => false

/-! ## Concrete inputs -/

/-- A user id in the form the request binding demands (`uuid`). -/
def demoUser : String := "7c9e6679-7425-40de-944b-e07fc1f90ae7"

/-- A store with one earlier reward and three price ticks. -/
def demoStore : Store :=
  { rewards :=
      [{ id := "reward-0", userId := demoUser, stockSymbol := "RELIANCE", quantity := 2,
         rewardedAt := 10, idempotencyKey := some "key-0", notes := "welcome" }]
    priceTicks :=
      [{ stockSymbol := "RELIANCE", priceInr := 2600, fetchedAt := 5 },
       { stockSymbol := "RELIANCE", priceInr := 2650, fetchedAt := 7 },
       { stockSymbol := "TCS", priceInr := 3300, fetchedAt := 7 }]
    ledgerEntries := []
    corporateActions := [] }

/-- An environment in which no store call fails. -/
def demoEnv : RewardEnv :=
  { now := 100, rewardID := "reward-1", txID := "tx-1", beginErr := none,
    insertRewardErr := none, ledgerErr1 := none, ledgerErr2 := none, ledgerErr3 := none,
    commitErr := none }

/-- The environment of a later call, in which no store call fails. -/
def demoEnvNext : RewardEnv :=
  { demoEnv with now := 101, rewardID := "reward-2", txID := "tx-2" }

/-- An environment in which the second ledger insert fails. -/
def demoEnvLedgerFails : RewardEnv :=
  { demoEnv with ledgerErr2 := some "pq: connection reset by peer" }

/-- A reward request on a symbol that has price ticks. -/
def demoReq : RewardRequest :=
  { UserID := demoUser, StockSymbol := "RELIANCE", Quantity := 3 / 2,
    IdempotencyKey := "key-1", Notes := "" }

/-- A reward request on a symbol that has no price tick. -/
def demoReqNoPrice : RewardRequest :=
  { UserID := demoUser, StockSymbol := "XYZ", Quantity := 10,
    IdempotencyKey := "", Notes := "" }

/-- An environment of `CorporateActionHandler` in which no store call fails
and quotients are kept with 16 fractional digits. -/
def demoCorpEnv : CorporateEnv :=
  { now := 200, txID := "tx-9", quotientScale := fun _ _ => 16, beginErr := none,
    rewardsErr := none, pricesErr := none, ledgerErr := none, actionErr := none,
    commitErr := none }

/-- A 2-for-1 split of RELIANCE. -/
def demoSplit : CorporateActionRequest :=
  { Action := "SPLIT", Symbol := "RELIANCE", NewSymbol := "", Ratio := 2, Effective := "" }

/-- A 3-for-1 split of RELIANCE. -/
def demoSplitByThree : CorporateActionRequest :=
  { Action := "SPLIT", Symbol := "RELIANCE", NewSymbol := "", Ratio := 3, Effective := "" }

/-- A merger of RELIANCE into JIO at ratio 1.5. -/
def demoMerger : CorporateActionRequest :=
  { Action := "MERGER", Symbol := "RELIANCE", NewSymbol := "JIO", Ratio := 3 / 2,
    Effective := "" }

/-- A merger of RELIANCE into RELIANCE itself at ratio 1.5. -/
def demoSelfMerger : CorporateActionRequest :=
  { Action := "MERGER", Symbol := "RELIANCE", NewSymbol := "RELIANCE", Ratio := 3 / 2,
    Effective := "" }

/-- A delisting of RELIANCE; `ratio` was left out of the JSON and is zero. -/
def demoDelist : CorporateActionRequest :=
  { Action := "DELIST", Symbol := "RELIANCE", NewSymbol := "", Ratio := 0, Effective := "" }

/-- A split with ratio zero. -/
def demoBadSplit : CorporateActionRequest :=
  { Action := "SPLIT", Symbol := "RELIANCE", NewSymbol := "", Ratio := 0, Effective := "" }


/-! ## Lemmas on PostRewardHandler -/

theorem PostRewardHandler_success (db : Store) (env : RewardEnv) (req : RewardRequest)
    (hh : env.healthy)
    (hv : violatesIdempotency db.rewards (nullString req.IdempotencyKey) = false) :
    PostRewardHandler db env (.ok req) =
      (.ok env.rewardID req.StockSymbol req.Quantity
          (StringFixed 4
            (rewardAmounts (priceOrZero db req.StockSymbol) req.Quantity).totalCashOutflow),
        { db with
          rewards := db.rewards ++ [rewardRow env req]
          ledgerEntries := db.ledgerEntries ++
            rewardPostings env.txID env.rewardID req (priceOrZero db req.StockSymbol) }) := by
  obtain ⟨h1, h2, h3, h4, h5, h6⟩ := hh
  simp [PostRewardHandler, insertReward, insertLedger, h1, h2, h3, h4, h5, h6, hv,
    rewardRow, rewardPostings, rewardAmounts]

theorem PostRewardHandler_rollback (db : Store) (env : RewardEnv)
    (body : Except String RewardRequest)
    (h : ∀ req, body = .ok req →
      ¬ (env.healthy ∧ violatesIdempotency db.rewards (nullString req.IdempotencyKey) = false)) :
    (PostRewardHandler db env body).2 = db ∧ (PostRewardHandler db env body).1.isOk = false := by
  cases body with
  | error e => simp [PostRewardHandler, RewardResponse.isOk]
  | ok req =>
    have h' := h req rfl
    unfold PostRewardHandler insertReward insertLedger
    simp only [RewardEnv.healthy] at h'
    cases hb : env.beginErr <;> cases hi : env.insertRewardErr <;>
      cases hv : violatesIdempotency db.rewards (nullString req.IdempotencyKey) <;>
      cases h1 : env.ledgerErr1 <;> cases h2 : env.ledgerErr2 <;>
      cases h3 : env.ledgerErr3 <;> cases hc : env.commitErr <;>
      simp_all [RewardResponse.isOk] <;> split <;> simp [RewardResponse.isOk]

theorem PostRewardHandler_ok_iff (db : Store) (env : RewardEnv) (req : RewardRequest) :
    (PostRewardHandler db env (.ok req)).1.isOk = true ↔
      (env.healthy ∧ violatesIdempotency db.rewards (nullString req.IdempotencyKey) = false) := by
  constructor
  · intro hok
    by_contra hne
    have := (PostRewardHandler_rollback db env (.ok req) (by
      intro r hr; cases hr; exact hne)).2
    simp [this] at hok
  · rintro ⟨hh, hv⟩
    rw [PostRewardHandler_success db env req hh hv]; rfl

theorem entriesOfTx_rewardPostings (txID rewardID : String) (req : RewardRequest) (price : ℚ) :
    entriesOfTx txID (rewardPostings txID rewardID req price) =
      rewardPostings txID rewardID req price := by
  simp [entriesOfTx, rewardPostings]

theorem entriesOfReward_rewardPostings (txID rewardID : String) (req : RewardRequest)
    (price : ℚ) :
    entriesOfReward rewardID (rewardPostings txID rewardID req price) =
      rewardPostings txID rewardID req price := by
  simp [entriesOfReward, rewardPostings]

theorem sumAmounts_debit_rewardPostings (txID rewardID : String) (req : RewardRequest)
    (price : ℚ) :
    sumAmounts .DEBIT (rewardPostings txID rewardID req price) =
      (nilDecimalOr (rewardAmounts price req.Quantity).cost).getD 0 +
        (rewardAmounts price req.Quantity).totalFees := by
  simp [sumAmounts, rewardPostings, List.filter]

theorem sumAmounts_credit_rewardPostings (txID rewardID : String) (req : RewardRequest)
    (price : ℚ) :
    sumAmounts .CREDIT (rewardPostings txID rewardID req price) =
      (rewardAmounts price req.Quantity).totalCashOutflow := by
  simp [sumAmounts, rewardPostings, List.filter]

theorem nilDecimalOr_getD (d : ℚ) : (nilDecimalOr d).getD 0 = d := by
  unfold nilDecimalOr
  split <;> simp_all

theorem isUniqueViolation_uniqueViolationMsg :
    isUniqueViolation (some uniqueViolationMsg) = true := by
  decide

theorem roundScaled_zero (places : Nat) : roundScaled places 0 = 0 := by
  simp [roundScaled, Int.floor_eq_iff]
  norm_num

theorem StringFixed_four_zero : StringFixed 4 0 = "0.0000" := by
  simp only [StringFixed, roundScaled_zero]
  decide

/-! ## Claims on PostRewardHandler -/

/-- C1. On every successful call whose generated `tx_id` is new to the ledger,
the entries under that `tx_id` are the three postings of the call, the DEBIT
amounts add up to the stock amount (absent counting as zero) plus the fees,
the CREDIT amounts add up to the total cash outflow, and the two sums are
equal. -/
theorem reward_postings_balance (db : Store) (env : RewardEnv) (req : RewardRequest)
    (hfresh : entriesOfTx env.txID db.ledgerEntries = [])
    (hok : (PostRewardHandler db env (.ok req)).1.isOk = true) :
    (entriesOfTx env.txID (PostRewardHandler db env (.ok req)).2.ledgerEntries).length = 3 ∧
    sumAmounts .DEBIT (entriesOfTx env.txID (PostRewardHandler db env (.ok req)).2.ledgerEntries)
      = (nilDecimalOr (priceOrZero db req.StockSymbol * req.Quantity)).getD 0 +
          (rewardAmounts (priceOrZero db req.StockSymbol) req.Quantity).totalFees ∧
    sumAmounts .CREDIT (entriesOfTx env.txID (PostRewardHandler db env (.ok req)).2.ledgerEntries)
      = (rewardAmounts (priceOrZero db req.StockSymbol) req.Quantity).totalCashOutflow ∧
    sumAmounts .DEBIT (entriesOfTx env.txID (PostRewardHandler db env (.ok req)).2.ledgerEntries)
      = sumAmounts .CREDIT
          (entriesOfTx env.txID (PostRewardHandler db env (.ok req)).2.ledgerEntries) := by
  obtain ⟨hh, hv⟩ := (PostRewardHandler_ok_iff db env req).1 hok
  rw [PostRewardHandler_success db env req hh hv]
  have hent : entriesOfTx env.txID (db.ledgerEntries ++
      rewardPostings env.txID env.rewardID req (priceOrZero db req.StockSymbol)) =
      rewardPostings env.txID env.rewardID req (priceOrZero db req.StockSymbol) := by
    have := entriesOfTx_rewardPostings env.txID env.rewardID req (priceOrZero db req.StockSymbol)
    unfold entriesOfTx at this hfresh ⊢
    rw [List.filter_append, hfresh, this, List.nil_append]
  simp only [hent, sumAmounts_debit_rewardPostings, sumAmounts_credit_rewardPostings,
    nilDecimalOr_getD]
  refine ⟨by simp [rewardPostings], ?_, trivial, ?_⟩ <;> simp [rewardAmounts]


theorem PostRewardHandler_duplicate (db : Store) (env : RewardEnv) (req : RewardRequest)
    (hb : env.beginErr = none) (hi : env.insertRewardErr = none)
    (hv : violatesIdempotency db.rewards (nullString req.IdempotencyKey) = true) :
    PostRewardHandler db env (.ok req) = (.duplicate, db) := by
  simp [PostRewardHandler, insertReward, hb, hi, hv, isUniqueViolation_uniqueViolationMsg]

theorem violatesIdempotency_eq_false_of (rs : List Reward) (k : String)
    (h : rewardsWithKey k rs = []) : violatesIdempotency rs (some k) = false := by
  unfold rewardsWithKey at h
  simp only [violatesIdempotency]
  rw [List.filter_eq_nil_iff] at h
  rw [List.any_eq_false]
  exact h

theorem nullString_of_ne (k : String) (hk : k ≠ "") : nullString k = some k := by
  simp [nullString, hk]

/-- C2. Two requests carrying the same non-empty idempotency key `k`, sent
one after the other to a store that has no reward with key `k` (and no ledger
entry referring to the id the first insert returns), with no store failure:
the first call succeeds, the second answers `duplicate` and changes nothing,
and afterwards exactly one reward carries `k` and exactly three ledger
entries refer to it. -/
theorem idempotent_resubmission (db : Store) (env1 env2 : RewardEnv)
    (req1 req2 : RewardRequest) (k : String) (hk : k ≠ "")
    (hk1 : req1.IdempotencyKey = k) (hk2 : req2.IdempotencyKey = k)
    (hh1 : env1.healthy) (hh2 : env2.healthy)
    (hnew : rewardsWithKey k db.rewards = [])
    (hfresh : entriesOfReward env1.rewardID db.ledgerEntries = []) :
    (PostRewardHandler db env1 (.ok req1)).1.isOk = true ∧
    (PostRewardHandler (PostRewardHandler db env1 (.ok req1)).2 env2 (.ok req2)).1
      = .duplicate ∧
    (PostRewardHandler (PostRewardHandler db env1 (.ok req1)).2 env2 (.ok req2)).2
      = (PostRewardHandler db env1 (.ok req1)).2 ∧
    rewardsWithKey k
      (PostRewardHandler (PostRewardHandler db env1 (.ok req1)).2 env2 (.ok req2)).2.rewards
      = [rewardRow env1 req1] ∧
    (entriesOfReward (rewardRow env1 req1).id
      (PostRewardHandler (PostRewardHandler db env1 (.ok req1)).2 env2
        (.ok req2)).2.ledgerEntries).length = 3 := by
  have hn1 : nullString req1.IdempotencyKey = some k := by
    rw [hk1]; exact nullString_of_ne k hk
  have hn2 : nullString req2.IdempotencyKey = some k := by
    rw [hk2]; exact nullString_of_ne k hk
  have hv1 : violatesIdempotency db.rewards (nullString req1.IdempotencyKey) = false := by
    rw [hn1]; exact violatesIdempotency_eq_false_of db.rewards k hnew
  have hfirst := PostRewardHandler_success db env1 req1 hh1 hv1
  have hv2 : violatesIdempotency (PostRewardHandler db env1 (.ok req1)).2.rewards
      (nullString req2.IdempotencyKey) = true := by
    rw [hfirst, hn2]
    simp [violatesIdempotency, rewardRow, hn1]
  have hsecond := PostRewardHandler_duplicate (PostRewardHandler db env1 (.ok req1)).2 env2 req2
    hh2.1 hh2.2.1 hv2
  rw [hsecond]
  refine ⟨(PostRewardHandler_ok_iff db env1 req1).2 ⟨hh1, hv1⟩, rfl, rfl, ?_, ?_⟩
  · rw [hfirst]
    unfold rewardsWithKey at hnew ⊢
    simp only [List.filter_append, hnew, List.nil_append]
    simp [rewardRow, hn1]
  · rw [hfirst]
    have := entriesOfReward_rewardPostings env1.txID env1.rewardID req1
      (priceOrZero db req1.StockSymbol)
    unfold entriesOfReward at hfresh this ⊢
    simp only [rewardRow, List.filter_append, hfresh, List.nil_append, this]
    simp [rewardPostings]

/-- C7. For every price and quantity the amounts of `PostRewardHandler` are
exact: cost is price times quantity, brokerage 0.0002 of cost, STT 0.001 of
cost, GST 0.18 of brokerage, total fees their sum, which is 0.001236 of cost,
and total cash outflow cost plus fees, which is 1.001236 of cost. A
successful call stores these unrounded amounts in the ledger and rounds only
in the answer, whose estimated cost is the 4-decimal rendering of
1.001236 times cost. -/
theorem fee_arithmetic_exact (p q : ℚ) (db : Store) (env : RewardEnv) (req : RewardRequest)
    (hok : (PostRewardHandler db env (.ok req)).1.isOk = true) :
    ((rewardAmounts p q).cost = p * q ∧
      (rewardAmounts p q).brokerage = 2 / 10000 * (rewardAmounts p q).cost ∧
      (rewardAmounts p q).stt = 1 / 1000 * (rewardAmounts p q).cost ∧
      (rewardAmounts p q).gst = 18 / 100 * (rewardAmounts p q).brokerage ∧
      (rewardAmounts p q).totalFees =
        (rewardAmounts p q).brokerage + (rewardAmounts p q).stt + (rewardAmounts p q).gst ∧
      (rewardAmounts p q).totalCashOutflow =
        (rewardAmounts p q).cost + (rewardAmounts p q).totalFees ∧
      (rewardAmounts p q).totalFees = 1236 / 1000000 * (p * q) ∧
      (rewardAmounts p q).totalCashOutflow = 1001236 / 1000000 * (p * q)) ∧
    (PostRewardHandler db env (.ok req)).1 =
      .ok env.rewardID req.StockSymbol req.Quantity
        (StringFixed 4 (1001236 / 1000000 * (priceOrZero db req.StockSymbol * req.Quantity))) ∧
    (PostRewardHandler db env (.ok req)).2.ledgerEntries.map (fun e => (e.account, e.amountInr))
      = db.ledgerEntries.map (fun e => (e.account, e.amountInr)) ++
        [("stock:" ++ req.StockSymbol,
            nilDecimalOr (priceOrZero db req.StockSymbol * req.Quantity)),
         ("cash:exchange",
            some (1001236 / 1000000 * (priceOrZero db req.StockSymbol * req.Quantity))),
         ("fees:brokerage_stt_gst",
            some (1236 / 1000000 * (priceOrZero db req.StockSymbol * req.Quantity)))] := by
  have harith : ∀ a b : ℚ,
      (rewardAmounts a b).totalFees = 1236 / 1000000 * (a * b) ∧
      (rewardAmounts a b).totalCashOutflow = 1001236 / 1000000 * (a * b) := by
    intro a b
    constructor <;> simp only [rewardAmounts] <;> ring
  obtain ⟨hh, hv⟩ := (PostRewardHandler_ok_iff db env req).1 hok
  rw [PostRewardHandler_success db env req hh hv]
  refine ⟨⟨rfl, ?_, ?_, ?_, rfl, rfl, (harith p q).1, (harith p q).2⟩, ?_, ?_⟩
  · simp only [rewardAmounts]; ring
  · simp only [rewardAmounts]; ring
  · simp only [rewardAmounts]; ring
  · rw [(harith _ _).2]
  · simp only [List.map_append, rewardPostings, List.map_cons, List.map_nil,
      (harith _ _).1, (harith _ _).2]
    simp [rewardAmounts]


/-- C8. A successful call appends exactly three ledger entries, in this
order, all under the generated `tx_id` and all with `ref_id` the id of the
reward row the same call appends: DEBIT `stock:<symbol>` for the cost, CREDIT
`cash:exchange` for the total cash outflow, DEBIT `fees:brokerage_stt_gst` for
the total fees; the stock amount is absent exactly when the cost is zero and
is the cost otherwise. -/
theorem reward_writes_three_postings (db : Store) (env : RewardEnv) (req : RewardRequest)
    (hok : (PostRewardHandler db env (.ok req)).1.isOk = true) :
    ∃ stockAmount : Option ℚ,
      (stockAmount = none ↔ priceOrZero db req.StockSymbol * req.Quantity = 0) ∧
      (priceOrZero db req.StockSymbol * req.Quantity ≠ 0 →
        stockAmount = some (priceOrZero db req.StockSymbol * req.Quantity)) ∧
      (PostRewardHandler db env (.ok req)).2.ledgerEntries = db.ledgerEntries ++
        [ { txId := env.txID, account := "stock:" ++ req.StockSymbol, entryType := .DEBIT,
            amountInr := stockAmount,
            stockSymbol := some req.StockSymbol, stockQuantity := some req.Quantity,
            refId := some env.rewardID },
          { txId := env.txID, account := "cash:exchange", entryType := .CREDIT,
            amountInr :=
              some (rewardAmounts (priceOrZero db req.StockSymbol) req.Quantity).totalCashOutflow,
            stockSymbol := some req.StockSymbol, stockQuantity := none,
            refId := some env.rewardID },
          { txId := env.txID, account := "fees:brokerage_stt_gst", entryType := .DEBIT,
            amountInr :=
              some (rewardAmounts (priceOrZero db req.StockSymbol) req.Quantity).totalFees,
            stockSymbol := none, stockQuantity := none,
            refId := some env.rewardID } ] ∧
      (∃ row : Reward, row.id = env.rewardID ∧
        (PostRewardHandler db env (.ok req)).2.rewards = db.rewards ++ [row]) := by
  obtain ⟨hh, hv⟩ := (PostRewardHandler_ok_iff db env req).1 hok
  rw [PostRewardHandler_success db env req hh hv]
  refine ⟨nilDecimalOr (priceOrZero db req.StockSymbol * req.Quantity), ?_, ?_, ?_,
    rewardRow env req, rfl, rfl⟩
  · unfold nilDecimalOr
    split <;> simp_all
  · intro hne
    simp [nilDecimalOr, hne]
  · simp [rewardPostings, rewardAmounts]

/-- C9. When the transaction is open and the reward insert has succeeded, a
failure of any of the three ledger inserts or of the commit leaves the store
exactly as it was and the call answers 500. In every run the store after the
call is either the store before it, or the store before it with one reward
row and the three postings appended. -/
theorem reward_all_or_nothing (db : Store) (env : RewardEnv) (req : RewardRequest) :
    (env.beginErr = none →
      (∃ out, insertReward db env req env.now = .ok out) →
      (env.ledgerErr1 ≠ none ∨ env.ledgerErr2 ≠ none ∨ env.ledgerErr3 ≠ none ∨
        env.commitErr ≠ none) →
      (PostRewardHandler db env (.ok req)).2 = db ∧
        (PostRewardHandler db env (.ok req)).1.status = 500) ∧
    ((PostRewardHandler db env (.ok req)).2 = db ∨
      (PostRewardHandler db env (.ok req)).2 =
        { db with
          rewards := db.rewards ++ [rewardRow env req]
          ledgerEntries := db.ledgerEntries ++
            rewardPostings env.txID env.rewardID req (priceOrZero db req.StockSymbol) }) := by
  constructor
  · rintro hb ⟨out, hout⟩ hfail
    unfold PostRewardHandler
    simp only [hb, hout]
    unfold insertLedger
    cases h1 : env.ledgerErr1 <;> cases h2 : env.ledgerErr2 <;>
      cases h3 : env.ledgerErr3 <;> cases hc : env.commitErr <;>
      simp_all [RewardResponse.status]
  · by_cases h : env.healthy ∧
        violatesIdempotency db.rewards (nullString req.IdempotencyKey) = false
    · right
      rw [PostRewardHandler_success db env req h.1 h.2]
    · left
      exact (PostRewardHandler_rollback db env (.ok req) (by
        intro r hr; cases hr; exact h)).1

theorem latestTick_eq_none_of (ticks : List PriceTick) (symbol : String)
    (h : ∀ t ∈ ticks, t.stockSymbol ≠ symbol) : latestTick ticks symbol = none := by
  induction ticks with
  | nil => rfl
  | cons t ts ih =>
    have ht : t.stockSymbol ≠ symbol := h t (List.mem_cons_self _ _)
    have hts : ∀ u ∈ ts, u.stockSymbol ≠ symbol := fun u hu => h u (List.mem_cons_of_mem _ hu)
    simp [latestTick, ht, ih hts]

/-- C10. A request on a symbol without any price tick, with no store failure
and no repeated idempotency key: the price lookup reports no row, the call
still succeeds with total cash outflow zero and estimated cost `0.0000`, one
reward row with the requested quantity is appended, and the three postings
are appended with the stock amount absent and the cash and fee amounts
zero. -/
theorem reward_without_price (db : Store) (env : RewardEnv) (req : RewardRequest)
    (hh : env.healthy)
    (hv : violatesIdempotency db.rewards (nullString req.IdempotencyKey) = false)
    (hno : ∀ t ∈ db.priceTicks, t.stockSymbol ≠ req.StockSymbol) :
    getLatestPriceForSymbol db req.StockSymbol = .error errNoRows ∧
    (rewardAmounts (priceOrZero db req.StockSymbol) req.Quantity).totalCashOutflow = 0 ∧
    (PostRewardHandler db env (.ok req)).1 =
      .ok env.rewardID req.StockSymbol req.Quantity "0.0000" ∧
    (PostRewardHandler db env (.ok req)).2.rewards = db.rewards ++
      [ { id := env.rewardID, userId := req.UserID, stockSymbol := req.StockSymbol,
          quantity := req.Quantity, rewardedAt := env.now,
          idempotencyKey := nullString req.IdempotencyKey, notes := req.Notes } ] ∧
    (PostRewardHandler db env (.ok req)).2.ledgerEntries = db.ledgerEntries ++
      [ { txId := env.txID, account := "stock:" ++ req.StockSymbol, entryType := .DEBIT,
          amountInr := none,
          stockSymbol := some req.StockSymbol, stockQuantity := some req.Quantity,
          refId := some env.rewardID },
        { txId := env.txID, account := "cash:exchange", entryType := .CREDIT,
          amountInr := some 0,
          stockSymbol := some req.StockSymbol, stockQuantity := none,
          refId := some env.rewardID },
        { txId := env.txID, account := "fees:brokerage_stt_gst", entryType := .DEBIT,
          amountInr := some 0,
          stockSymbol := none, stockQuantity := none,
          refId := some env.rewardID } ] := by
  have hlook : getLatestPriceForSymbol db req.StockSymbol = .error errNoRows := by
    simp [getLatestPriceForSymbol, latestTick_eq_none_of db.priceTicks req.StockSymbol hno]
  have hprice : priceOrZero db req.StockSymbol = 0 := by
    simp [priceOrZero, hlook]
  rw [PostRewardHandler_success db env req hh hv, hprice]
  have hamt : rewardAmounts 0 req.Quantity = ⟨0, 0, 0, 0, 0, 0⟩ := by
    simp [rewardAmounts]
  refine ⟨hlook, by rw [hamt], ?_, rfl, ?_⟩
  · simp only [hamt, StringFixed_four_zero]
  · simp [rewardPostings, hamt, nilDecimalOr]


/-! ## Lemmas on CorporateActionHandler -/

theorem CorporateActionHandler_split (db : Store) (env : CorporateEnv)
    (req : CorporateActionRequest) (hh : env.healthy) (ha : req.Action = "SPLIT")
    (hr : 0 < req.Ratio) :
    CorporateActionHandler db env (.ok req) =
      (.ok "SPLIT" req.Symbol req.Ratio req.NewSymbol,
        { rewards := splitRewards db.rewards req.Ratio req.Symbol
          priceTicks := splitPrices db.priceTicks env.quotientScale req.Ratio req.Symbol
          ledgerEntries := db.ledgerEntries ++
            [markerEntry env.txID "corporate_action:split" .DEBIT req.Symbol]
          corporateActions := db.corporateActions ++
            [{ stockSymbol := req.Symbol, actionType := "SPLIT", ratio := req.Ratio,
               newSymbol := req.NewSymbol, effectiveDate := env.now }] }) := by
  obtain ⟨h1, h2, h3, h4, h5, h6⟩ := hh
  simp [CorporateActionHandler, applyAction, insertLedger, h1, h2, h3, h4, h5, h6, ha,
    not_le.mpr hr]

theorem CorporateActionHandler_merger (db : Store) (env : CorporateEnv)
    (req : CorporateActionRequest) (hh : env.healthy) (ha : req.Action = "MERGER")
    (hr : 0 < req.Ratio) (hn : req.NewSymbol ≠ "") :
    CorporateActionHandler db env (.ok req) =
      (.ok "MERGER" req.Symbol req.Ratio req.NewSymbol,
        { rewards := mergeRewards db.rewards req.NewSymbol req.Ratio req.Symbol
          priceTicks := db.priceTicks
          ledgerEntries := db.ledgerEntries ++
            [markerEntry env.txID "corporate_action:merger" .DEBIT req.Symbol]
          corporateActions := db.corporateActions ++
            [{ stockSymbol := req.Symbol, actionType := "MERGER", ratio := req.Ratio,
               newSymbol := req.NewSymbol, effectiveDate := env.now }] }) := by
  obtain ⟨h1, h2, h3, h4, h5, h6⟩ := hh
  simp [CorporateActionHandler, applyAction, insertLedger, h1, h2, h3, h4, h5, h6, ha,
    not_le.mpr hr, hn]

theorem CorporateActionHandler_delist (db : Store) (env : CorporateEnv)
    (req : CorporateActionRequest) (hh : env.healthy) (ha : req.Action = "DELIST") :
    CorporateActionHandler db env (.ok req) =
      (.ok "DELIST" req.Symbol req.Ratio req.NewSymbol,
        { rewards := delistRewards db.rewards req.Symbol
          priceTicks := deletePrices db.priceTicks req.Symbol
          ledgerEntries := db.ledgerEntries ++
            [markerEntry env.txID "corporate_action:delist" .CREDIT req.Symbol]
          corporateActions := db.corporateActions ++
            [{ stockSymbol := req.Symbol, actionType := "DELIST", ratio := req.Ratio,
               newSymbol := req.NewSymbol, effectiveDate := env.now }] }) := by
  obtain ⟨h1, h2, h3, h4, h5, h6⟩ := hh
  simp [CorporateActionHandler, applyAction, insertLedger, h1, h2, h3, h4, h5, h6, ha]

theorem applyAction_rejects (tx : Store) (env : CorporateEnv) (action symbol : String)
    (ratio : ℚ) (newSymbol : String)
    (h : (action ≠ "DELIST" ∧ ratio ≤ 0) ∨ (action = "MERGER" ∧ newSymbol = "")) :
    ∃ msg, applyAction tx env action symbol ratio newSymbol = .error (.badRequest msg) := by
  unfold applyAction
  by_cases hs : action = "SPLIT"
  · have hr : ratio ≤ 0 := by
      rcases h with h | h
      · exact h.2
      · rw [hs] at h; exact absurd h.1 (by decide)
    simp [hs, hr]
  · by_cases hm : action = "MERGER"
    · have hc : ratio ≤ 0 ∨ newSymbol = "" := by
        rcases h with h | h
        · exact Or.inl h.2
        · exact Or.inr h.2
      simp [hm, hc]
    · have hd : action ≠ "DELIST" := by
        rcases h with h | h
        · exact h.1
        · exact absurd h.1 hm
      simp [hs, hm, hd]

theorem ten_pow_mod_three (s : Nat) : (10 : ℤ) ^ s % 3 = 1 := by
  induction s with
  | zero => rfl
  | succ k ih => rw [pow_succ, Int.mul_emod, ih]; rfl

theorem numericDiv_three_inexact (scale : Nat) : numericDiv scale 2650 3 * 6 ≠ 5300 := by
  intro h
  unfold numericDiv at h
  have hpos : (10 : ℚ) ^ scale ≠ 0 := by positivity
  field_simp at h
  have h2 : roundScaled scale (2650 / 3) * 6 = 5300 * (10 : ℤ) ^ scale := by
    exact_mod_cast h
  have h3 := ten_pow_mod_three scale
  omega

theorem latestTick_splitPrices (ts : List PriceTick) (scale : ℚ → ℚ → Nat) (ratio : ℚ)
    (symbol : String) :
    latestTick (splitPrices ts scale ratio symbol) symbol =
      (latestTick ts symbol).map
        (fun t => { t with priceInr := numericDiv (scale t.priceInr ratio) t.priceInr ratio }) := by
  induction ts with
  | nil => rfl
  | cons t ts ih =>
    unfold splitPrices at ih ⊢
    by_cases ht : t.stockSymbol = symbol
    · simp only [List.map_cons, ht, if_true, latestTick, ih]
      cases hl : latestTick ts symbol with
      | none => simp [ht]
      | some u =>
        by_cases hlt : t.fetchedAt < u.fetchedAt <;> simp [hlt, ht]
    · simp only [List.map_cons, ht, if_false, latestTick, ih]

theorem priceOrZero_split (db : Store) (rs : List Reward) (ls : List LedgerEntry)
    (cs : List CorporateAction) (scale : ℚ → ℚ → Nat) (ratio : ℚ) (symbol : String) :
    priceOrZero { rewards := rs, priceTicks := splitPrices db.priceTicks scale ratio symbol,
                  ledgerEntries := ls, corporateActions := cs } symbol =
      match latestTick db.priceTicks symbol with
      | none => 0
      | some t => numericDiv (scale t.priceInr ratio) t.priceInr ratio := by
  simp only [priceOrZero, getLatestPriceForSymbol, latestTick_splitPrices]
  cases latestTick db.priceTicks symbol <;> simp

theorem priceOrZero_eq_latestTick (db : Store) (symbol : String) :
    priceOrZero db symbol =
      match latestTick db.priceTicks symbol with
      | none => 0
      | some t => t.priceInr := by
  simp only [priceOrZero, getLatestPriceForSymbol]
  cases latestTick db.priceTicks symbol <;> simp

theorem holdingQuantity_split (db : Store) (ts : List PriceTick) (ls : List LedgerEntry)
    (cs : List CorporateAction) (ratio : ℚ) (symbol userId : String) :
    holdingQuantity { rewards := splitRewards db.rewards ratio symbol, priceTicks := ts,
                      ledgerEntries := ls, corporateActions := cs } userId symbol =
      holdingQuantity db userId symbol * ratio := by
  simp only [holdingQuantity, splitRewards]
  induction db.rewards with
  | nil => simp
  | cons r rs ih =>
    by_cases hs : r.stockSymbol = symbol <;> by_cases hu : r.userId = userId <;>
      simp [List.filter_cons, hs, hu, ih, add_mul] <;> simpa using ih

theorem getElem?_map_of_true {α : Type} (f : α → α) (l : List α) (i : Nat) (x : α)
    (h : l[i]? = some x) : (l.map f)[i]? = some (f x) := by
  simp [List.getElem?_map, h]


theorem latestTick_deletePrices (ts : List PriceTick) (symbol : String) :
    latestTick (deletePrices ts symbol) symbol = none := by
  apply latestTick_eq_none_of
  intro t ht
  unfold deletePrices at ht
  simpa using (List.mem_filter.mp ht).2

/-! ## Claims on CorporateActionHandler -/

/-- Whatever number of fractional digits the store keeps for the quotient, the
3-for-1 split of RELIANCE changes the position value of the holder: no finite
decimal times 6 is 5300. -/
theorem split_by_three_inexact_at_every_scale (env : CorporateEnv) (hh : env.healthy) :
    positionValue (CorporateActionHandler demoStore env (.ok demoSplitByThree)).2
      demoUser demoSplitByThree.Symbol ≠
        positionValue demoStore demoUser demoSplitByThree.Symbol := by
  have hr : 0 < demoSplitByThree.Ratio := by norm_num [demoSplitByThree]
  have hlatest : latestTick demoStore.priceTicks "RELIANCE" =
      some { stockSymbol := "RELIANCE", priceInr := 2650, fetchedAt := 7 } := by
    simp [latestTick, demoStore]
  have hbefore : positionValue demoStore demoUser demoSplitByThree.Symbol = 5300 := by
    simp only [positionValue, priceOrZero_eq_latestTick, demoSplitByThree, hlatest]
    norm_num [holdingQuantity, demoStore]
  rw [hbefore, CorporateActionHandler_split demoStore env demoSplitByThree hh rfl hr]
  simp only [positionValue, priceOrZero_split, holdingQuantity_split, demoSplitByThree, hlatest]
  have hq : holdingQuantity demoStore demoUser "RELIANCE" = 2 := by
    norm_num [holdingQuantity, demoStore]
  rw [hq]
  have h6 : ((2 : ℚ) * 3) = 6 := by norm_num
  rw [h6]
  exact numericDiv_three_inexact _

/-- C4, as amended. A MERGER of symbol `A` into a non-empty `B` by a ratio
`r > 0`, with no store failure, is applied: every reward that was tagged `A`
keeps its place, is tagged `B` and has its quantity multiplied by `r`; and
when `B` differs from `A`, no reward remains tagged `A`. -/
theorem merger_retags (db : Store) (env : CorporateEnv) (req : CorporateActionRequest)
    (hh : env.healthy) (ha : req.Action = "MERGER") (hr : 0 < req.Ratio)
    (hn : req.NewSymbol ≠ "") :
    (CorporateActionHandler db env (.ok req)).1.isOk = true ∧
    (CorporateActionHandler db env (.ok req)).2.rewards.length = db.rewards.length ∧
    (∀ (i : Nat) (x : Reward), db.rewards[i]? = some x → x.stockSymbol = req.Symbol →
      (CorporateActionHandler db env (.ok req)).2.rewards[i]? =
        some { x with stockSymbol := req.NewSymbol, quantity := x.quantity * req.Ratio }) ∧
    (req.NewSymbol ≠ req.Symbol →
      ∀ x ∈ (CorporateActionHandler db env (.ok req)).2.rewards,
        x.stockSymbol ≠ req.Symbol) := by
  rw [CorporateActionHandler_merger db env req hh ha hr hn]
  refine ⟨rfl, by simp [mergeRewards], ?_, ?_⟩
  · intro i x hx hs
    simp only [mergeRewards]
    rw [getElem?_map_of_true _ _ i x hx]
    simp [hs]
  · intro hne x hx
    simp only [mergeRewards, List.mem_map] at hx
    obtain ⟨y, _, hy⟩ := hx
    by_cases hs : y.stockSymbol = req.Symbol
    · rw [if_pos hs] at hy
      rw [← hy]
      exact hne
    · rw [if_neg hs] at hy
      rw [← hy]
      exact hs

/-- C4, as stated, fails: a MERGER of RELIANCE into RELIANCE with ratio 1.5
is accepted (non-empty new symbol, positive ratio) and applied, and the
reward that was tagged RELIANCE is still tagged RELIANCE afterwards. -/
theorem merger_into_same_symbol_keeps_tag :
    demoSelfMerger.NewSymbol ≠ "" ∧ 0 < demoSelfMerger.Ratio ∧
    (CorporateActionHandler demoStore demoCorpEnv (.ok demoSelfMerger)).1.isOk = true ∧
    ¬ (∀ x ∈ (CorporateActionHandler demoStore demoCorpEnv (.ok demoSelfMerger)).2.rewards,
        x.stockSymbol ≠ demoSelfMerger.Symbol) := by
  have hr : 0 < demoSelfMerger.Ratio := by norm_num [demoSelfMerger]
  have hn : demoSelfMerger.NewSymbol ≠ "" := by decide
  rw [CorporateActionHandler_merger demoStore demoCorpEnv demoSelfMerger (by decide) rfl hr hn]
  refine ⟨hn, hr, rfl, ?_⟩
  simp [mergeRewards, demoStore, demoSelfMerger]

/-- C5. A DELIST of symbol `C`, with no store failure, is applied: no price
tick of `C` is left, the latest-price lookup for `C` reports no row, and
every reward that was tagged `C` keeps its place and its other fields and has
notes `DELISTED`. -/
theorem delist_purges (db : Store) (env : CorporateEnv) (req : CorporateActionRequest)
    (hh : env.healthy) (ha : req.Action = "DELIST") :
    (CorporateActionHandler db env (.ok req)).1.isOk = true ∧
    getLatestPriceForSymbol (CorporateActionHandler db env (.ok req)).2 req.Symbol =
      .error errNoRows ∧
    (∀ t ∈ (CorporateActionHandler db env (.ok req)).2.priceTicks,
      t.stockSymbol ≠ req.Symbol) ∧
    (CorporateActionHandler db env (.ok req)).2.rewards.length = db.rewards.length ∧
    (∀ (i : Nat) (x : Reward), db.rewards[i]? = some x → x.stockSymbol = req.Symbol →
      (CorporateActionHandler db env (.ok req)).2.rewards[i]? =
        some { x with notes := "DELISTED" }) := by
  rw [CorporateActionHandler_delist db env req hh ha]
  refine ⟨rfl, ?_, ?_, by simp [delistRewards], ?_⟩
  · simp [getLatestPriceForSymbol, latestTick_deletePrices]
  · intro t ht
    simp only [deletePrices] at ht
    simpa using (List.mem_filter.mp ht).2
  · intro i x hx hs
    simp only [delistRewards]
    rw [getElem?_map_of_true _ _ i x hx]
    simp [hs]

/-- C6, as amended. A request of any action type other than DELIST whose
ratio is at most zero, and a MERGER request whose new symbol is empty, change
nothing: whatever the store calls return, the store after the call is the
store before it and the answer is not the success answer. -/
theorem invalid_action_changes_nothing (db : Store) (env : CorporateEnv)
    (req : CorporateActionRequest)
    (h : (req.Action ≠ "DELIST" ∧ req.Ratio ≤ 0) ∨
      (req.Action = "MERGER" ∧ req.NewSymbol = "")) :
    (CorporateActionHandler db env (.ok req)).2 = db ∧
    (CorporateActionHandler db env (.ok req)).1.isOk = false := by
  obtain ⟨msg, hmsg⟩ := applyAction_rejects db env req.Action req.Symbol req.Ratio
    req.NewSymbol h
  unfold CorporateActionHandler
  cases hb : env.beginErr with
  | some e => simp [CorporateResponse.isOk]
  | none => simp [hmsg, CorporateResponse.isOk]

/-- C6, as stated, fails: a DELIST request whose ratio is zero is applied,
and the store after the call differs from the store before it. -/
theorem delist_ignores_ratio :
    demoDelist.Ratio ≤ 0 ∧
    (CorporateActionHandler demoStore demoCorpEnv (.ok demoDelist)).1.isOk = true ∧
    (CorporateActionHandler demoStore demoCorpEnv (.ok demoDelist)).2 ≠ demoStore := by
  rw [CorporateActionHandler_delist demoStore demoCorpEnv demoDelist (by decide) rfl]
  refine ⟨by norm_num [demoDelist], rfl, ?_⟩
  intro heq
  have hlen := congrArg (fun s => s.ledgerEntries.length) heq
  simp [demoStore] at hlen


/-! ## The claims at concrete inputs -/

/-- C1 at a concrete call: a reward of 1.5 RELIANCE at price 2650. -/
theorem reward_postings_balance_witness :
    entriesOfTx demoEnv.txID demoStore.ledgerEntries = [] ∧
    (PostRewardHandler demoStore demoEnv (.ok demoReq)).1.isOk = true ∧
    sumAmounts .DEBIT
        (entriesOfTx demoEnv.txID (PostRewardHandler demoStore demoEnv (.ok demoReq)).2.ledgerEntries)
      = sumAmounts .CREDIT
        (entriesOfTx demoEnv.txID
          (PostRewardHandler demoStore demoEnv (.ok demoReq)).2.ledgerEntries) :=
  ⟨by decide, by decide,
    (reward_postings_balance demoStore demoEnv demoReq (by decide) (by decide)).2.2.2⟩

/-- C2 at a concrete pair of calls carrying the key `key-1`. -/
theorem idempotent_resubmission_witness :
    demoReq.IdempotencyKey ≠ "" ∧
    (PostRewardHandler (PostRewardHandler demoStore demoEnv (.ok demoReq)).2 demoEnvNext
      (.ok demoReq)).1 = .duplicate ∧
    rewardsWithKey "key-1"
      (PostRewardHandler (PostRewardHandler demoStore demoEnv (.ok demoReq)).2 demoEnvNext
        (.ok demoReq)).2.rewards = [rewardRow demoEnv demoReq] :=
  ⟨by decide,
    (idempotent_resubmission demoStore demoEnv demoEnvNext demoReq demoReq "key-1"
      (by decide) rfl rfl (by decide) (by decide) (by decide) (by decide)).2.1,
    (idempotent_resubmission demoStore demoEnv demoEnvNext demoReq demoReq "key-1"
      (by decide) rfl rfl (by decide) (by decide) (by decide) (by decide)).2.2.2.1⟩

/-- C4 at a concrete call: the merger of RELIANCE into JIO. -/
theorem merger_retags_witness :
    demoMerger.NewSymbol ≠ demoMerger.Symbol ∧
    ∀ x ∈ (CorporateActionHandler demoStore demoCorpEnv (.ok demoMerger)).2.rewards,
      x.stockSymbol ≠ demoMerger.Symbol :=
  ⟨by decide,
    (merger_retags demoStore demoCorpEnv demoMerger (by decide) rfl
      (by norm_num [demoMerger]) (by decide)).2.2.2 (by decide)⟩

/-- C5 at a concrete call: the delisting of RELIANCE. -/
theorem delist_purges_witness :
    getLatestPriceForSymbol (CorporateActionHandler demoStore demoCorpEnv (.ok demoDelist)).2
      demoDelist.Symbol = .error errNoRows :=
  (delist_purges demoStore demoCorpEnv demoDelist (by decide) rfl).2.1

/-- C6 at a concrete call: a split with ratio zero. -/
theorem invalid_action_changes_nothing_witness :
    demoBadSplit.Ratio ≤ 0 ∧
    (CorporateActionHandler demoStore demoCorpEnv (.ok demoBadSplit)).2 = demoStore :=
  ⟨by norm_num [demoBadSplit],
    (invalid_action_changes_nothing demoStore demoCorpEnv demoBadSplit
      (Or.inl ⟨by decide, by norm_num [demoBadSplit]⟩)).1⟩

/-- C7 at a concrete call: price 2650, quantity 1.5. -/
theorem fee_arithmetic_exact_witness :
    (PostRewardHandler demoStore demoEnv (.ok demoReq)).1.isOk = true ∧
    (rewardAmounts 2650 (3 / 2)).totalCashOutflow = 1001236 / 1000000 * (2650 * (3 / 2)) :=
  ⟨by decide,
    (fee_arithmetic_exact 2650 (3 / 2) demoStore demoEnv demoReq (by decide)).1.2.2.2.2.2.2.2⟩

/-- C8 at a concrete call. -/
theorem reward_writes_three_postings_witness :
    (PostRewardHandler demoStore demoEnv (.ok demoReq)).1.isOk = true ∧
    ∃ row : Reward, row.id = demoEnv.rewardID ∧
      (PostRewardHandler demoStore demoEnv (.ok demoReq)).2.rewards =
        demoStore.rewards ++ [row] :=
  ⟨by decide,
    (reward_writes_three_postings demoStore demoEnv demoReq (by decide)).elim
      (fun _ h => h.2.2.2)⟩

/-- C9 at a concrete call: the reward insert succeeds, the second ledger
insert fails. -/
theorem reward_all_or_nothing_witness :
    (∃ out, insertReward demoStore demoEnvLedgerFails demoReq demoEnvLedgerFails.now
      = .ok out) ∧
    demoEnvLedgerFails.ledgerErr2 ≠ none ∧
    (PostRewardHandler demoStore demoEnvLedgerFails (.ok demoReq)).2 = demoStore ∧
    (PostRewardHandler demoStore demoEnvLedgerFails (.ok demoReq)).1.status = 500 :=
  ⟨⟨_, rfl⟩, by decide,
    (reward_all_or_nothing demoStore demoEnvLedgerFails demoReq).1 rfl ⟨_, rfl⟩
      (Or.inr (Or.inl (by decide)))⟩

/-- C10 at a concrete call: 10 XYZ, a symbol without price ticks. -/
theorem reward_without_price_witness :
    (∀ t ∈ demoStore.priceTicks, t.stockSymbol ≠ demoReqNoPrice.StockSymbol) ∧
    (PostRewardHandler demoStore demoEnv (.ok demoReqNoPrice)).1 =
      .ok "reward-1" "XYZ" 10 "0.0000" :=
  ⟨by decide,
    (reward_without_price demoStore demoEnv demoReqNoPrice (by decide) (by decide)
      (by decide)).2.2.1⟩

/-! ## The audit trail of a corporate action -/

theorem applyAction_ok_ledger (tx tx2 : Store) (env : CorporateEnv) (action symbol : String)
    (ratio : ℚ) (newSymbol : String)
    (h : applyAction tx env action symbol ratio newSymbol = .ok tx2) :
    ∃ (account : String) (ty : EntryType),
      ((action = "SPLIT" ∧ account = "corporate_action:split" ∧ ty = .DEBIT) ∨
        (action = "MERGER" ∧ account = "corporate_action:merger" ∧ ty = .DEBIT) ∨
        (action = "DELIST" ∧ account = "corporate_action:delist" ∧ ty = .CREDIT)) ∧
      tx2.ledgerEntries = tx.ledgerEntries ++ [markerEntry env.txID account ty symbol] ∧
      tx2.corporateActions = tx.corporateActions := by
  unfold applyAction insertLedger at h
  by_cases hs : action = "SPLIT"
  · refine ⟨"corporate_action:split", .DEBIT, Or.inl ⟨hs, rfl, rfl⟩, ?_⟩
    cases hr : env.rewardsErr <;> cases hp : env.pricesErr <;> cases hl : env.ledgerErr <;>
      by_cases hratio : ratio ≤ 0 <;> simp_all
    subst h
    exact ⟨rfl, rfl⟩
  · by_cases hm : action = "MERGER"
    · refine ⟨"corporate_action:merger", .DEBIT, Or.inr (Or.inl ⟨hm, rfl, rfl⟩), ?_⟩
      cases hr : env.rewardsErr <;> cases hl : env.ledgerErr <;>
        by_cases hratio : ratio ≤ 0 <;> by_cases hn : newSymbol = "" <;> simp_all
      subst h
      exact ⟨rfl, rfl⟩
    · by_cases hd : action = "DELIST"
      · refine ⟨"corporate_action:delist", .CREDIT, Or.inr (Or.inr ⟨hd, rfl, rfl⟩), ?_⟩
        cases hr : env.rewardsErr <;> cases hp : env.pricesErr <;> cases hl : env.ledgerErr <;>
          simp_all
        subst h
        exact ⟨rfl, rfl⟩
      · simp [hs, hm, hd] at h

theorem applyAction_error_not_ok (tx : Store) (env : CorporateEnv) (action symbol : String)
    (ratio : ℚ) (newSymbol : String) (resp : CorporateResponse)
    (h : applyAction tx env action symbol ratio newSymbol = .error resp) :
    resp.isOk = false := by
  unfold applyAction insertLedger at h
  by_cases hs : action = "SPLIT"
  · cases hr : env.rewardsErr <;> cases hp : env.pricesErr <;> cases hl : env.ledgerErr <;>
      by_cases hratio : ratio ≤ 0 <;> simp_all <;> (subst h; rfl)
  · by_cases hm : action = "MERGER"
    · cases hr : env.rewardsErr <;> cases hl : env.ledgerErr <;>
        by_cases hratio : ratio ≤ 0 <;> by_cases hn : newSymbol = "" <;> simp_all <;>
        (subst h; rfl)
    · by_cases hd : action = "DELIST"
      · cases hr : env.rewardsErr <;> cases hp : env.pricesErr <;> cases hl : env.ledgerErr <;>
          simp_all <;> (subst h; rfl)
      · simp [hs, hm, hd] at h
        subst h
        rfl

/-- C11. Every successful `CorporateActionHandler` call is a SPLIT, MERGER or
DELIST; its ledger is the ledger before the call, unchanged, followed by
exactly one marker entry under the generated `tx_id`, tagged with the
request's symbol and with no amount, quantity or reference (account
`corporate_action:split` as DEBIT, `corporate_action:merger` as DEBIT, or
`corporate_action:delist` as CREDIT); and its corporate-action records are
those before the call followed by exactly one record holding the symbol, the
action type, the ratio and the new symbol. -/
theorem corporate_action_appends_marker (db : Store) (env : CorporateEnv)
    (req : CorporateActionRequest)
    (hok : (CorporateActionHandler db env (.ok req)).1.isOk = true) :
    ∃ (account : String) (ty : EntryType),
      ((req.Action = "SPLIT" ∧ account = "corporate_action:split" ∧ ty = .DEBIT) ∨
        (req.Action = "MERGER" ∧ account = "corporate_action:merger" ∧ ty = .DEBIT) ∨
        (req.Action = "DELIST" ∧ account = "corporate_action:delist" ∧ ty = .CREDIT)) ∧
      (CorporateActionHandler db env (.ok req)).2.ledgerEntries = db.ledgerEntries ++
        [ { txId := env.txID, account := account, entryType := ty, amountInr := none,
            stockSymbol := some req.Symbol, stockQuantity := none, refId := none } ] ∧
      (CorporateActionHandler db env (.ok req)).2.corporateActions = db.corporateActions ++
        [ { stockSymbol := req.Symbol, actionType := req.Action, ratio := req.Ratio,
            newSymbol := req.NewSymbol, effectiveDate := env.now } ] := by
  unfold CorporateActionHandler at hok ⊢
  cases hb : env.beginErr with
  | some e => simp [hb, CorporateResponse.isOk] at hok
  | none =>
    cases happ : applyAction db env req.Action req.Symbol req.Ratio req.NewSymbol with
    | error resp =>
      have := applyAction_error_not_ok db env req.Action req.Symbol req.Ratio req.NewSymbol
        resp happ
      simp [hb, happ, this] at hok
    | ok tx =>
      obtain ⟨account, ty, hcase, hled, hact⟩ :=
        applyAction_ok_ledger db tx env req.Action req.Symbol req.Ratio req.NewSymbol happ
      cases ha : env.actionErr with
      | some e => simp [hb, happ, ha, CorporateResponse.isOk] at hok
      | none =>
        cases hc : env.commitErr with
        | some e => simp [hb, happ, ha, hc, CorporateResponse.isOk] at hok
        | none =>
          refine ⟨account, ty, hcase, ?_, ?_⟩
          · simp [hb, happ, ha, hc, hled, markerEntry]
          · simp [hb, happ, ha, hc, hact]

/-- C11 at a concrete call: the 2-for-1 split of RELIANCE. -/
theorem corporate_action_appends_marker_witness :
    (CorporateActionHandler demoStore demoCorpEnv (.ok demoSplit)).1.isOk = true ∧
    ∃ (account : String) (ty : EntryType),
      ((demoSplit.Action = "SPLIT" ∧ account = "corporate_action:split" ∧ ty = .DEBIT) ∨
        (demoSplit.Action = "MERGER" ∧ account = "corporate_action:merger" ∧ ty = .DEBIT) ∨
        (demoSplit.Action = "DELIST" ∧ account = "corporate_action:delist" ∧ ty = .CREDIT)) ∧
      (CorporateActionHandler demoStore demoCorpEnv (.ok demoSplit)).2.ledgerEntries =
        demoStore.ledgerEntries ++
        [ { txId := demoCorpEnv.txID, account := account, entryType := ty, amountInr := none,
            stockSymbol := some demoSplit.Symbol, stockQuantity := none, refId := none } ] ∧
      (CorporateActionHandler demoStore demoCorpEnv (.ok demoSplit)).2.corporateActions =
        demoStore.corporateActions ++
        [ { stockSymbol := demoSplit.Symbol, actionType := demoSplit.Action,
            ratio := demoSplit.Ratio, newSymbol := demoSplit.NewSymbol,
            effectiveDate := demoCorpEnv.now } ] :=
  have hok : (CorporateActionHandler demoStore demoCorpEnv (.ok demoSplit)).1.isOk = true := by
    rw [CorporateActionHandler_split demoStore demoCorpEnv demoSplit (by decide) rfl
      (by norm_num [demoSplit])]
    rfl
  ⟨hok, corporate_action_appends_marker demoStore demoCorpEnv demoSplit hok⟩


end Stocky
